import Mathlib

/-!
Shallow embedding of the mealwise-plan-engine core (TypeScript sources) and
proofs about the claims of its specification.

Conventions of the embedding:
* JS numbers are modelled as rationals (`ℚ`); all arithmetic appearing in the
  sources is exact on the values the claims exercise.
* `Math.round` is `jsRound` (round half toward positive infinity, as in JS).
* The JS idiom `x || d` on numbers is `jsOrNum` (`d` when `x` is falsy, i.e.
  zero; `undefined` fields are modelled with `Option` and collapse through
  the same `||` default at their use sites).
* Database and external-service reads are passed in as explicit environment
  functions (`String → Option _`); exceptions thrown by the network layer are
  modelled as `Option`/`Except` results at the call boundary.
-/

namespace Mealwise

/-- JS `Math.round`: nearest integer, ties toward positive infinity, i.e.
the floor of `q + 1/2` (stated through the executable `Rat.floor`). -/
def jsRound (q : ℚ) : ℤ := (q + 1 / 2).floor

/-- `jsRound` agrees with the mathematical floor of `q + 1/2`. -/
theorem jsRound_eq_floor (q : ℚ) : jsRound q = ⌊q + 1 / 2⌋ := by
  rw [jsRound, Rat.floor_def', Rat.floor_def]

/-- JS `x || d` for numeric `x`: `d` when `x` is falsy (zero), `x` otherwise. -/
def jsOrNum (x d : ℚ) : ℚ := if x = 0 then d else x

/-- `Math.round(q * 10) / 10`: the one-decimal rounding used for macros. -/
def roundTo1 (q : ℚ) : ℚ := (jsRound (q * 10) : ℚ) / 10

/-- `charsHavePrefix sub l` is true when `sub` is a prefix of `l`. -/
def charsHavePrefix : List Char → List Char → Bool
  | [], _ => true
  | _ :: _, [] => false
  | c :: cs, d :: ds => decide (c = d) && charsHavePrefix cs ds

/-- JS `String.prototype.includes`: `sub` occurs contiguously in `s`. -/
def jsIncludes (s sub : String) : Bool :=
  (List.range (s.data.length + 1)).any fun i => charsHavePrefix sub.data (s.data.drop i)

/-- JS truthiness of an optional number (`undefined` and `0` are falsy). -/
def jsTruthyNumOpt (o : Option ℚ) : Bool :=
  match o with
  | some q => decide (q ≠ 0)
  | none => false

-- =============================================================================
-- Shared nutrition data model (nutrition-validator/index.ts, `NutritionData`)
-- =============================================================================

/-- `NutritionData` of nutrition-validator/index.ts; `fiber` is optional in the
source and defaulted to `0` through `|| 0` at every read, which is the same as
storing `0`. -/
structure NutritionData where
  calories : ℚ
  protein : ℚ
  fat : ℚ
  carbohydrates : ℚ
  fiber : ℚ
deriving DecidableEq, Repr

/-- One entry of a recipe ingredient list (`name`, `amount`, `unit`). -/
structure Ingredient where
  name : String
  amount : ℚ
  unit : String
deriving DecidableEq, Repr

/-- The columns of the `recipes` row read by the nutrition code:
`select(title, nutrition_info, ingredients, servings)`. A missing or null
`servings` is modelled as `0` (both fall through `recipe.servings || 1`). -/
structure RecipeRow where
  title : String
  nutrition_info : Option NutritionData
  ingredients : Option (List Ingredient)
  servings : ℚ
deriving DecidableEq, Repr

-- =============================================================================
-- nutrition-validator/index.ts — class NutritionValidator
-- =============================================================================

namespace NutritionValidator

/-- `isReliableNutrition` (nutrition-validator/index.ts lines 457-463). -/
def isReliableNutrition (n : NutritionData) : Bool :=
  decide (0 < n.calories) && decide (0 ≤ n.protein) &&
  decide (0 ≤ n.fat) && decide (0 ≤ n.carbohydrates)

/-- The minor-ingredient word list of `isMinorIngredient` (lines 465-471). -/
def minorIngredients : List String :=
  ["salt", "pepper", "water", "vanilla", "baking powder", "garlic powder",
   "onion powder", "paprika", "oregano", "basil", "thyme", "rosemary"]

/-- `isMinorIngredient`: the lowercased name contains one of the words. -/
def isMinorIngredient (name : String) : Bool :=
  minorIngredients.any fun minor => jsIncludes name.toLower minor

/-- The unit-to-grams table of `convertToGrams` (lines 473-488). -/
def gramsTable : List (String × ℚ) :=
  [("g", 1), ("gram", 1), ("grams", 1),
   ("kg", 1000), ("kilogram", 1000),
   ("oz", 28.35), ("ounce", 28.35), ("ounces", 28.35),
   ("lb", 453.59), ("pound", 453.59), ("pounds", 453.59),
   ("cup", 240), ("cups", 240),
   ("tbsp", 15), ("tablespoon", 15), ("tablespoons", 15),
   ("tsp", 5), ("teaspoon", 5), ("teaspoons", 5),
   ("ml", 1), ("milliliter", 1), ("milliliters", 1),
   ("l", 1000), ("liter", 1000), ("liters", 1000)]

/-- `convertToGrams`: `conversions[unit.toLowerCase()] || 100`, then
`amount * factor`. A missing key and a zero entry both yield `100` through
`||`, exactly as in JS. -/
def convertToGrams (amount : ℚ) (unit : String) : ℚ :=
  let factor := jsOrNum ((gramsTable.lookup unit.toLower).getD 0) 100
  amount * factor

/-- `estimateNutrition` (lines 490-513): keyword heuristic over the title. -/
def estimateNutrition (recipeTitle : String) : NutritionData :=
  let title := recipeTitle.toLower
  if jsIncludes title "salad" then
    { calories := 150, protein := 8, fat := 5, carbohydrates := 15, fiber := 3 }
  else if jsIncludes title "pasta" || jsIncludes title "rice" then
    { calories := 400, protein := 12, fat := 8, carbohydrates := 60, fiber := 3 }
  else if jsIncludes title "chicken" || jsIncludes title "beef" then
    { calories := 350, protein := 25, fat := 15, carbohydrates := 10, fiber := 3 }
  else if jsIncludes title "soup" then
    { calories := 200, protein := 10, fat := 6, carbohydrates := 20, fiber := 3 }
  else
    { calories := 300, protein := 15, fat := 10, carbohydrates := 30, fiber := 3 }

/-- `calculateFromUSDA` (lines 386-430): sum per-ingredient contributions of
the non-minor ingredients over the USDA lookup environment, then round. The
source returns `null` only from the `catch` branch, which the pure embedding
cannot reach, so the result is total. -/
def calculateFromUSDA (usda : String → Option NutritionData)
    (ingredients : List Ingredient) : NutritionData :=
  let mainIngredients := ingredients.filter fun ing =>
    decide (0 < ing.amount) && !isMinorIngredient ing.name
  let totals := mainIngredients.foldl
    (fun (acc : ℚ × ℚ × ℚ × ℚ × ℚ) ing =>
      match usda ing.name with
      | none => acc
      | some u =>
          let amountInGrams := convertToGrams ing.amount ing.unit
          if 0 < amountInGrams then
            let multiplier := amountInGrams / 100
            (acc.1 + u.calories * multiplier,
             acc.2.1 + u.protein * multiplier,
             acc.2.2.1 + u.fat * multiplier,
             acc.2.2.2.1 + u.carbohydrates * multiplier,
             acc.2.2.2.2 + u.fiber * multiplier)
          else acc)
    (0, 0, 0, 0, 0)
  { calories := (jsRound totals.1 : ℚ),
    protein := roundTo1 totals.2.1,
    fat := roundTo1 totals.2.2.1,
    carbohydrates := roundTo1 totals.2.2.2.1,
    fiber := roundTo1 totals.2.2.2.2 }

/-- `calculation_method` tag of a resolved meal. -/
inductive CalcMethod where
  | spoonacular
  | usda_calculated
  | estimated
deriving DecidableEq, Repr

/-- The per-meal output of `calculateMealNutrition`. -/
structure MealNutrition where
  recipe_id : String
  recipe_title : String
  nutrition : NutritionData
  calculation_method : CalcMethod
deriving DecidableEq, Repr

/-- The body of `calculateMealNutrition` (lines 318-384) after the recipe row
has been fetched: tier selection, then serving adjustment. The `estimated`
tier of the source is entered only when `calculateFromUSDA` returns `null`,
which happens only on an internal exception; in the pure embedding
`calculateFromUSDA` is total, so that branch does not arise. -/
def mealNutritionOfRecipe (usda : String → Option NutritionData)
    (recipeId : String) (recipe : RecipeRow) (servings : ℚ)
    (useUSDAFallback : Bool) : Option MealNutrition :=
  let tier : Option (NutritionData × CalcMethod) :=
    match recipe.nutrition_info with
    | some ni =>
        if isReliableNutrition ni then some (ni, .spoonacular)
        else
          match recipe.ingredients with
          | some ings =>
              if useUSDAFallback then some (calculateFromUSDA usda ings, .usda_calculated)
              else none
          | none => none
    | none =>
        match recipe.ingredients with
        | some ings =>
            if useUSDAFallback then some (calculateFromUSDA usda ings, .usda_calculated)
            else none
        | none => none
  match tier with
  | none => none
  | some (nutrition, calculationMethod) =>
      let servingMultiplier := servings / jsOrNum recipe.servings 1
      some
        { recipe_id := recipeId,
          recipe_title := recipe.title,
          nutrition :=
            { calories := (jsRound (nutrition.calories * servingMultiplier) : ℚ),
              protein := roundTo1 (nutrition.protein * servingMultiplier),
              fat := roundTo1 (nutrition.fat * servingMultiplier),
              carbohydrates := roundTo1 (nutrition.carbohydrates * servingMultiplier),
              fiber := roundTo1 (nutrition.fiber * servingMultiplier) },
          calculation_method := calculationMethod }

/-- `calculateMealNutrition`: fetch the recipe row, then resolve. A fetch
error returns `null`. -/
def calculateMealNutrition (fetchRecipe : String → Option RecipeRow)
    (usda : String → Option NutritionData) (recipeId : String) (servings : ℚ)
    (useUSDAFallback : Bool) : Option MealNutrition :=
  match fetchRecipe recipeId with
  | none => none
  | some recipe => mealNutritionOfRecipe usda recipeId recipe servings useUSDAFallback

/-- A meal slot of the validated plan: `recipe_id` plus `servings`
(`servings || 1` at the use site; a missing value is modelled as `0`). -/
structure Meal where
  recipe_id : String
  servings : ℚ
deriving DecidableEq, Repr

/-- One day of `plan_data`. -/
structure PlanDay where
  meals : List Meal
deriving DecidableEq, Repr

/-- The `plan_data` input of `validatePlan`. -/
structure PlanInput where
  days : List PlanDay
deriving DecidableEq, Repr

/-- The `targets` object of the validation request. -/
structure Targets where
  daily_calories : ℚ
  daily_protein : ℚ
  daily_fat : ℚ
  daily_carbohydrates : ℚ
  daily_fiber : Option ℚ
deriving DecidableEq, Repr

/-- The `options` object (zod defaults: threshold 15, require_all_recipes
true, use_usda_fallback true). `detailed_breakdown` only duplicates data into
a presentation field and is not modelled. -/
structure ValidationOptions where
  deviation_threshold : ℚ
  require_all_recipes : Bool
  use_usda_fallback : Bool
deriving DecidableEq, Repr

/-- The zod defaults of `options`. -/
def defaultOptions : ValidationOptions :=
  { deviation_threshold := 15, require_all_recipes := true, use_usda_fallback := true }

/-- `target_deviations` of the validation result; `fiber_deviation` is
`undefined` when `targets.daily_fiber` is falsy. -/
structure Deviations where
  calories_deviation : ℚ
  protein_deviation : ℚ
  fat_deviation : ℚ
  carbohydrates_deviation : ℚ
  fiber_deviation : Option ℚ
deriving DecidableEq, Repr

/-- `ValidationResult` of nutrition-validator/index.ts. -/
structure ValidationResult where
  is_valid : Bool
  total_nutrition : NutritionData
  daily_average : NutritionData
  target_deviations : Deviations
  within_threshold : Bool
  missing_nutrition_data : List String
  suggestions : List String
deriving DecidableEq, Repr

/-- `calculateDeviation` (lines 452-455). -/
def calculateDeviation (actual target : ℚ) : ℚ :=
  if target = 0 then 0 else (actual - target) / target * 100

/-- Rendering abstraction of JS `toFixed(1)`: the development never reasons
about the digit string, only about which suggestions appear. -/
def fixed1 (q : ℚ) : String := toString (roundTo1 q)

/-- `generateNutritionSuggestions` (lines 515-535): one suggestion per numeric
deviation entry whose magnitude exceeds the threshold, in `Object.entries`
insertion order; the `targets` parameter is unused in the source as well. -/
def generateNutritionSuggestions (deviations : Deviations) (_targets : Targets)
    (threshold : ℚ) : List String :=
  let entries : List (String × Option ℚ) :=
    [("calories", some deviations.calories_deviation),
     ("protein", some deviations.protein_deviation),
     ("fat", some deviations.fat_deviation),
     ("carbohydrates", some deviations.carbohydrates_deviation),
     ("fiber", deviations.fiber_deviation)]
  entries.foldl
    (fun acc entry =>
      match entry.2 with
      | none => acc
      | some dev =>
          if threshold < |dev| then
            if 0 < dev then
              acc ++ ["Reduce " ++ entry.1 ++ " intake - currently " ++
                fixed1 dev ++ "% above target"]
            else
              acc ++ ["Increase " ++ entry.1 ++ " intake - currently " ++
                fixed1 |dev| ++ "% below target"]
          else acc)
    []

/-- The running accumulator of the `validatePlan` meal loop. -/
structure PlanAcc where
  total : NutritionData
  missing : List String
  suggestions : List String
deriving Repr

/-- One meal iteration of the `validatePlan` loop (lines 226-257). -/
def validateMealStep (fetchRecipe : String → Option RecipeRow)
    (usda : String → Option NutritionData) (options : ValidationOptions)
    (acc : PlanAcc) (meal : Meal) : PlanAcc :=
  match calculateMealNutrition fetchRecipe usda meal.recipe_id
      (jsOrNum meal.servings 1) options.use_usda_fallback with
  | some mn =>
      { acc with total :=
          { calories := acc.total.calories + mn.nutrition.calories,
            protein := acc.total.protein + mn.nutrition.protein,
            fat := acc.total.fat + mn.nutrition.fat,
            carbohydrates := acc.total.carbohydrates + mn.nutrition.carbohydrates,
            fiber := acc.total.fiber + mn.nutrition.fiber } }
  | none =>
      let rid := meal.recipe_id
      { acc with
        missing := acc.missing ++ [s!"Recipe {rid}"],
        suggestions := acc.suggestions ++
          (if options.require_all_recipes then
            [s!"Missing nutrition data for recipe {rid}"] else []) }

/-- `NutritionValidator.validatePlan` (lines 198-316). -/
def validatePlan (fetchRecipe : String → Option RecipeRow)
    (usda : String → Option NutritionData) (planData : PlanInput)
    (targets : Targets) (options : ValidationOptions) : ValidationResult :=
  let acc := planData.days.foldl
    (fun acc day => day.meals.foldl (validateMealStep fetchRecipe usda options) acc)
    { total := { calories := 0, protein := 0, fat := 0, carbohydrates := 0, fiber := 0 },
      missing := [], suggestions := [] }
  let dayCount : ℚ := (planData.days.length : ℚ)
  let dailyAverage : NutritionData :=
    { calories := (jsRound (acc.total.calories / dayCount) : ℚ),
      protein := roundTo1 (acc.total.protein / dayCount),
      fat := roundTo1 (acc.total.fat / dayCount),
      carbohydrates := roundTo1 (acc.total.carbohydrates / dayCount),
      fiber := roundTo1 (acc.total.fiber / dayCount) }
  let deviations : Deviations :=
    { calories_deviation := calculateDeviation dailyAverage.calories targets.daily_calories,
      protein_deviation := calculateDeviation dailyAverage.protein targets.daily_protein,
      fat_deviation := calculateDeviation dailyAverage.fat targets.daily_fat,
      carbohydrates_deviation :=
        calculateDeviation dailyAverage.carbohydrates targets.daily_carbohydrates,
      fiber_deviation :=
        match targets.daily_fiber with
        | some f => if f = 0 then none else some (calculateDeviation dailyAverage.fiber f)
        | none => none }
  let coreDeviations : List ℚ :=
    [|deviations.calories_deviation|, |deviations.protein_deviation|,
     |deviations.fat_deviation|, |deviations.carbohydrates_deviation|]
  let withinThreshold := coreDeviations.all fun dev => decide (dev ≤ options.deviation_threshold)
  let isValid := withinThreshold &&
    (if options.require_all_recipes then decide (acc.missing.length = 0) else true)
  let suggestions := acc.suggestions ++
    (if !withinThreshold then
      generateNutritionSuggestions deviations targets options.deviation_threshold
     else [])
  { is_valid := isValid,
    total_nutrition := acc.total,
    daily_average := dailyAverage,
    target_deviations := deviations,
    within_threshold := withinThreshold,
    missing_nutrition_data := acc.missing,
    suggestions := suggestions }

end NutritionValidator

-- =============================================================================
-- agents/nutrition-council.ts — class NutritionCouncil
-- =============================================================================

namespace NutritionCouncil

/-- The four-field totals the council computes (its objects carry no fiber). -/
structure Macro4 where
  calories : ℚ
  protein : ℚ
  fat : ℚ
  carbohydrates : ℚ
deriving DecidableEq, Repr

/-- The `target_deviations` object of the council result. -/
structure CouncilDeviations where
  calories_deviation : ℚ
  protein_deviation : ℚ
  fat_deviation : ℚ
  carbohydrates_deviation : ℚ
deriving DecidableEq, Repr

/-- The nutritional targets the council reads from the blueprint. -/
structure CouncilTargets where
  daily_calories : ℚ
  daily_protein : ℚ
  daily_fat : ℚ
  daily_carbohydrates : ℚ
deriving DecidableEq, Repr

/-- `NutritionCouncil.isReliableNutrition` (nutrition-council.ts lines
672-674): unlike the validator it checks only calories and protein. -/
def isReliableNutrition (n : NutritionData) : Bool :=
  decide (0 < n.calories) && decide (0 ≤ n.protein)

/-- The minor-ingredient list of the council (lines 676-679). -/
def minorIngredients : List String :=
  ["salt", "pepper", "oil", "water", "vanilla", "baking powder", "garlic powder"]

/-- `NutritionCouncil.isMinorIngredient`. -/
def isMinorIngredient (name : String) : Bool :=
  minorIngredients.any fun minor => jsIncludes name.toLower minor

/-- The conversion table of `convertToStandardAmount` (lines 681-698). Note
that it has no entry for milliliters or liters. -/
def standardAmountTable : List (String × ℚ) :=
  [("g", 1), ("gram", 1), ("grams", 1),
   ("kg", 1000),
   ("oz", 28.35),
   ("pound", 453.59), ("lb", 453.59),
   ("cup", 240),
   ("tbsp", 15),
   ("tsp", 5)]

/-- `convertToStandardAmount`: `conversions[unit.toLowerCase()] || 100`,
then `amount * factor`. -/
def convertToStandardAmount (amount : ℚ) (unit : String) : ℚ :=
  let factor := jsOrNum ((standardAmountTable.lookup unit.toLower).getD 0) 100
  amount * factor

/-- `calculateRecipeNutritionFromUSDA` (lines 375-418). Accessing
`recipe.ingredients.filter` on a missing list throws and is caught as `null`;
otherwise the pure computation always produces an object. -/
def calculateRecipeNutritionFromUSDA (usda : String → Option NutritionData)
    (recipe : RecipeRow) : Option Macro4 :=
  match recipe.ingredients with
  | none => none
  | some ingredients =>
      let mainIngredients := ingredients.filter fun ing =>
        decide (0 < ing.amount) && !isMinorIngredient ing.name
      let totals := mainIngredients.foldl
        (fun (acc : ℚ × ℚ × ℚ × ℚ) ing =>
          match usda ing.name with
          | none => acc
          | some u =>
              let amountIn100g := convertToStandardAmount ing.amount ing.unit
              if 0 < amountIn100g then
                let multiplier := amountIn100g / 100
                (acc.1 + u.calories * multiplier,
                 acc.2.1 + u.protein * multiplier,
                 acc.2.2.1 + u.fat * multiplier,
                 acc.2.2.2 + u.carbohydrates * multiplier)
              else acc)
        (0, 0, 0, 0)
      some
        { calories := (jsRound totals.1 : ℚ),
          protein := roundTo1 totals.2.1,
          fat := roundTo1 totals.2.2.1,
          carbohydrates := roundTo1 totals.2.2.2 }

/-- The per-meal nutrition source selection inside `calculatePlanNutrition`
(lines 338-345): declared `nutrition_info` when the council deems it
reliable, otherwise the USDA computation. -/
def mealNutrition (usda : String → Option NutritionData) (recipe : RecipeRow) :
    Option Macro4 :=
  match recipe.nutrition_info with
  | some ni =>
      if isReliableNutrition ni then
        some { calories := ni.calories, protein := ni.protein, fat := ni.fat,
               carbohydrates := ni.carbohydrates }
      else calculateRecipeNutritionFromUSDA usda recipe
  | none => calculateRecipeNutritionFromUSDA usda recipe

/-- The serving multiplier of `calculatePlanNutrition` (line 349):
`(meal.servings || 1) / (recipe.servings || 1)`. -/
def councilServingMultiplier (mealServings recipeServings : ℚ) : ℚ :=
  jsOrNum mealServings 1 / jsOrNum recipeServings 1

/-- `calculateDeviation` (lines 658-661), identical to the validator one. -/
def calculateDeviation (actual target : ℚ) : ℚ :=
  if target = 0 then 0 else (actual - target) / target * 100

/-- `calculateDailyAverage` (lines 663-670). -/
def calculateDailyAverage (total : Macro4) (days : ℚ) : Macro4 :=
  { calories := (jsRound (total.calories / days) : ℚ),
    protein := roundTo1 (total.protein / days),
    fat := roundTo1 (total.fat / days),
    carbohydrates := roundTo1 (total.carbohydrates / days) }

/-- `generateNutritionSuggestions` of the council (lines 700-718). -/
def generateNutritionSuggestions (deviations : CouncilDeviations)
    (_targets : CouncilTargets) : List String :=
  let s1 : List String :=
    if 15 < |deviations.calories_deviation| then
      if 0 < deviations.calories_deviation then
        ["Reduce portion sizes or choose lighter recipes"]
      else ["Add snacks or choose more calorie-dense recipes"]
    else []
  let s2 : List String :=
    if 15 < |deviations.protein_deviation| then
      if deviations.protein_deviation < 0 then
        ["Include more protein-rich foods like lean meats, legumes, or dairy"]
      else []
    else []
  s1 ++ s2

/-- The council validation result (the fields of
`NutritionValidationResult` that `validateNutrition` fills in). -/
structure CouncilValidationResult where
  is_valid : Bool
  total_nutrition : Macro4
  daily_average : Macro4
  target_deviations : CouncilDeviations
  within_15_percent_threshold : Bool
  missing_nutrition_data : List String
  suggestions : List String
deriving DecidableEq, Repr

/-- The core of `NutritionCouncil.validateNutrition` (lines 273-297) once a
total has been computed and targets are present: deviations, the 15%
threshold rule, and `is_valid`. -/
def validateNutritionCore (totalNutrition : Macro4) (dayCount : ℚ)
    (targets : CouncilTargets) : CouncilValidationResult :=
  let dailyAverage := calculateDailyAverage totalNutrition dayCount
  let deviations : CouncilDeviations :=
    { calories_deviation := calculateDeviation dailyAverage.calories targets.daily_calories,
      protein_deviation := calculateDeviation dailyAverage.protein targets.daily_protein,
      fat_deviation := calculateDeviation dailyAverage.fat targets.daily_fat,
      carbohydrates_deviation :=
        calculateDeviation dailyAverage.carbohydrates targets.daily_carbohydrates }
  let devValues : List ℚ :=
    [deviations.calories_deviation, deviations.protein_deviation,
     deviations.fat_deviation, deviations.carbohydrates_deviation]
  let within15Percent := devValues.all fun dev => decide (|dev| ≤ 15)
  let suggestions := generateNutritionSuggestions deviations targets
  { is_valid := within15Percent,
    total_nutrition := totalNutrition,
    daily_average := dailyAverage,
    target_deviations := deviations,
    within_15_percent_threshold := within15Percent,
    missing_nutrition_data := [],
    suggestions := if within15Percent then [] else suggestions }

/-- A JSON primitive that can sit in the `rating` field of the object
`JSON.parse` yields for a coherence response. `obj` stands for a nested
plain JSON object, whose contents are irrelevant to the rating semantics
(it is truthy and numerically coerces to NaN whatever it holds); a nested
JSON array, which stringifies element-wise under coercion, does not occur in
anything this development evaluates and is not modelled. -/
inductive JsonPrim where
  | null
  | bool (b : Bool)
  | num (q : ℚ)
  | str (s : String)
  | obj
deriving DecidableEq, Repr

/-- JS truthiness of a JSON primitive (`JSON.parse` numbers are never NaN,
so a number is falsy exactly when it is 0). -/
def JsonPrim.truthy : JsonPrim → Bool
  | .null => false
  | .bool b => b
  | .num q => decide (q ≠ 0)
  | .str s => decide (s ≠ "")
  | .obj => true

/-- JS `ToNumber` on a string, with `none` playing NaN. The numeric content
is modelled for unsigned decimal integer numerals — the only string values
this development evaluates numerically — and every other non-empty string is
treated as NaN (JS additionally accepts signed, fractional, exponent and hex
forms, none of which occur here); the empty string converts to 0. -/
def jsStringToNumber (s : String) : Option ℚ :=
  if s = "" then some 0 else (s.toNat?).map fun n => (n : ℚ)

/-- JS `ToNumber` on a JSON primitive, with `none` playing NaN; a nested
plain object stringifies and coerces to NaN. -/
def jsToNumber : JsonPrim → Option ℚ
  | .null => some 0
  | .bool b => some (if b then 1 else 0)
  | .num q => some q
  | .str s => jsStringToNumber s
  | .obj => none

/-- JS `v >= q` for a JSON primitive against a number: numeric coercion of
`v`, false when it coerces to NaN. -/
def jsGe (v : JsonPrim) (q : ℚ) : Bool :=
  match jsToNumber v with
  | some x => decide (q ≤ x)
  | none => false

/-- The possible shapes of a coherence-review response string after the
`/\x7b[\s\S]*\x7d/` match and `JSON.parse`: either no parseable JSON object,
or an object whose `rating` field is absent or any JSON primitive. The
`feedback` field is modelled as string-or-absent, since only the rating
drives acceptance. -/
inductive CoherenceResponseShape where
  | noJsonObject
  | jsonObject (rating : Option JsonPrim) (feedback : Option String)
deriving DecidableEq, Repr

/-- The parsed rating/feedback pair; the rating keeps whatever value
`parsed.rating || 0` produced, which need not be a number. -/
structure CoherenceParsed where
  rating : JsonPrim
  feedback : String
deriving DecidableEq, Repr

/-- `parseCoherenceResponse` (lines 584-599): `parsed.rating || 0` keeps a
truthy rating value unchanged — whatever its type — and replaces an absent
or falsy one with the number `0`; an absent or empty feedback falls to the
default text. -/
def parseCoherenceResponse : CoherenceResponseShape → CoherenceParsed
  | .noJsonObject =>
      { rating := .num 0, feedback := "Failed to parse coherence response" }
  | .jsonObject rating feedback =>
      { rating :=
          match rating with
          | some v => if v.truthy then v else .num 0
          | none => .num 0,
        feedback :=
          match feedback with
          | some f => if f = "" then "No feedback provided" else f
          | none => "No feedback provided" }

/-- Outcome of `validateCoherence` (lines 446-502): `none` for a thrown API
error, otherwise the parsed response. Returns (success, rating, feedback). -/
def validateCoherence (api : Option CoherenceResponseShape) :
    Bool × JsonPrim × String :=
  match api with
  | some shape =>
      let p := parseCoherenceResponse shape
      (true, p.rating, p.feedback)
  | none => (false, .num 0, "Coherence validation failed")

/-- The acceptance decision of one pass of the `validateAndRefine` loop
(lines 85-103): the plan is accepted when nutrition is valid and
`coherenceResult.success && coherenceResult.rating >= 7`, the comparison
being the JS one with numeric coercion of the rating. -/
def validationPassAccepts (nutritionValid : Bool)
    (api : Option CoherenceResponseShape) : Bool :=
  let coherenceResult := validateCoherence api
  nutritionValid && (coherenceResult.1 && jsGe coherenceResult.2.1 7)

end NutritionCouncil

-- =============================================================================
-- agents/wow-layer.ts — candidate scoring and diversity selection
-- =============================================================================

namespace WowLayer

/-- The recipe fields read by scoring and diversity selection. -/
structure Recipe where
  id : String
  title : String
  cuisine_type : Option String
  meal_type : List String
  difficulty_level : Option String
  rating_average : ℚ
  is_premium : Bool
deriving DecidableEq, Repr

/-- A `recipe_rated` event of the blueprint (`rating` is the reaction tag,
compared against the string `love`). -/
structure RatingEvent where
  recipe_id : String
  rating : String
deriving DecidableEq, Repr

/-- A `meal_swapped` event of the blueprint. -/
structure SwapEvent where
  original_recipe_id : String
deriving DecidableEq, Repr

/-- The intake fields read by `buildScoringCriteria`. -/
structure Intake where
  cultural_preferences : List String
  cooking_time_preference : Option ℚ
deriving DecidableEq, Repr

/-- The subscription-plan fields read by scoring. -/
structure SubscriptionPlan where
  access_to_premium_content : Bool
deriving DecidableEq, Repr

/-- The blueprint fields read by the wow-layer scoring path. -/
structure UserBlueprint where
  intake : Intake
  subscription_plan : SubscriptionPlan
  recent_ratings : List RatingEvent
  recent_swaps : List SwapEvent
deriving DecidableEq, Repr

/-- The generation preferences read by `buildScoringCriteria`. -/
structure GenerationPreferences where
  enforce_variety : Option Bool
  focus_macros : Option (List String)
deriving DecidableEq, Repr

/-- One entry of the parsed `recipe_scores` object; any of the fields may be
absent in the raw payload. -/
structure ScoreData where
  score : Option ℚ
  match_reasons : Option (List String)
  penalty_reasons : Option (List String)
deriving Repr

/-- `RecipeCandidate` of types/recipe.ts. -/
structure RecipeCandidate where
  recipe : Recipe
  base_score : ℚ
  ai_personalization_score : ℚ
  final_score : ℚ
  match_reasons : List String
  penalty_reasons : List String
deriving DecidableEq, Repr

/-- `parseAIScoringResponse` (wow-layer.ts lines 946-997). The input models
the scorer response after JSON extraction: `none` when no JSON object parses
or the object has no `recipe_scores` field (both throw and yield an error
result); otherwise the `recipe_scores` lookup map. A recipe with no entry
gets the default candidate with score 50 and the no-score penalty reason. -/
def parseAIScoringResponse (recipeScores : Option (String → Option ScoreData))
    (recipes : List Recipe) : Except String (List RecipeCandidate) :=
  match recipeScores with
  | none => .error "Failed to parse AI response"
  | some scores =>
      .ok (recipes.map fun recipe =>
        match scores recipe.id with
        | none =>
            { recipe := recipe,
              base_score := 50,
              ai_personalization_score := 50,
              final_score := 50,
              match_reasons := [],
              penalty_reasons := ["No AI score available"] }
        | some scoreData =>
            { recipe := recipe,
              base_score := recipe.rating_average * 20,
              ai_personalization_score := jsOrNum (scoreData.score.getD 0) 50,
              final_score := 0,
              match_reasons := scoreData.match_reasons.getD [],
              penalty_reasons := scoreData.penalty_reasons.getD [] })

/-- `ScoringCriteria` of types/recipe.ts (the fields set by
`buildScoringCriteria`). -/
structure ScoringCriteria where
  cuisine_match_weight : ℚ
  nutrition_match_weight : ℚ
  prep_time_weight : ℚ
  user_rating_weight : ℚ
  variety_weight : ℚ
  premium_bonus : ℚ
  recent_favorite_bonus : ℚ
  seasonal_bonus : ℚ
deriving DecidableEq, Repr

/-- `buildScoringCriteria` (lines 868-884). -/
def buildScoringCriteria (blueprint : UserBlueprint)
    (preferences : GenerationPreferences) : ScoringCriteria :=
  let intake := blueprint.intake
  { cuisine_match_weight := if intake.cultural_preferences.length ≠ 0 then 0.3 else 0.1,
    nutrition_match_weight :=
      if (preferences.focus_macros.getD []).length ≠ 0 then 0.4 else 0.2,
    prep_time_weight := if jsTruthyNumOpt intake.cooking_time_preference then 0.2 else 0.1,
    user_rating_weight := 0.2,
    variety_weight := if preferences.enforce_variety ≠ some false then 0.15 else 0.05,
    premium_bonus :=
      if blueprint.subscription_plan.access_to_premium_content then 1.1 else 1.0,
    recent_favorite_bonus := 1.2,
    seasonal_bonus := 1.05 }

/-- `getRecentFavoriteBonus` (lines 1118-1130): 1.3 for an exact recent
`love` rating of this recipe, 1.0 otherwise. -/
def getRecentFavoriteBonus (recipe : Recipe) (blueprint : UserBlueprint) : ℚ :=
  let recentLoves := blueprint.recent_ratings.filter fun r => decide (r.rating = "love")
  if recentLoves.any fun rating => decide (rating.recipe_id = recipe.id) then 1.3 else 1.0

/-- `getSwapPenalty` (lines 1132-1143): 0.7 when the recipe is the original
recipe of a recent swap, 1.0 otherwise. -/
def getSwapPenalty (recipe : Recipe) (blueprint : UserBlueprint) : ℚ :=
  if blueprint.recent_swaps.any fun swap =>
      decide (swap.original_recipe_id = recipe.id) then 0.7 else 1.0

/-- `calculateFinalScore` (lines 1002-1029). -/
def calculateFinalScore (candidate : RecipeCandidate) (criteria : ScoringCriteria)
    (blueprint : UserBlueprint) : ℚ :=
  let score := candidate.base_score * 0.3 + candidate.ai_personalization_score * 0.4
  let score := score * getRecentFavoriteBonus candidate.recipe blueprint
  let score :=
    if candidate.recipe.is_premium &&
        blueprint.subscription_plan.access_to_premium_content then
      score * criteria.premium_bonus
    else score
  let score := score * getSwapPenalty candidate.recipe blueprint
  min (max score 0) 100

/-- Modelled from the spec (section 4.2, step 3): the final-score formula as
the specification words it — weighted sum `0.3 * base + 0.4 *
personalization`, multiplied by the 1.3 recency-favorite bonus, the 1.1
premium-access bonus, and the 0.7 swap penalty, clamped to [0, 100]. Stated
for comparison against `calculateFinalScore`. -/
def specFinalScore (candidate : RecipeCandidate) (blueprint : UserBlueprint) : ℚ :=
  let loved := blueprint.recent_ratings.any fun r =>
    decide (r.rating = "love") && decide (r.recipe_id = candidate.recipe.id)
  let premiumApplies := candidate.recipe.is_premium &&
    blueprint.subscription_plan.access_to_premium_content
  let swapped := blueprint.recent_swaps.any fun swap =>
    decide (swap.original_recipe_id = candidate.recipe.id)
  let raw := (0.3 * candidate.base_score + 0.4 * candidate.ai_personalization_score) *
    (if loved then 1.3 else 1) *
    (if premiumApplies then 1.1 else 1) *
    (if swapped then 0.7 else 1)
  min (max raw 0) 100

/-- `targetCount` of `selectDiverseSet` (line 1036). -/
def targetCount : ℕ := 30

/-- `Math.ceil(targetCount / 5)` — the per-cuisine cap. -/
def cuisineLimit : ℕ := (((targetCount : ℚ) / 5).ceil).toNat

/-- `Math.ceil(targetCount / 3)` — the per-meal-type cap. -/
def mealTypeLimit : ℕ := (((targetCount : ℚ) / 3).ceil).toNat

/-- Loop state of `selectDiverseSet`: the selected list plus the diversity
counters. -/
structure DivState where
  selected : List RecipeCandidate
  cuisineCount : String → ℕ
  mealTypeCount : String → ℕ
  difficultyCount : String → ℕ

/-- Increment one counter key. -/
def bump (f : String → ℕ) (k : String) : String → ℕ :=
  fun s => if s = k then f k + 1 else f s

/-- The skip test of `selectDiverseSet` (lines 1052-1068): the candidate
would exceed the cuisine cap or a meal-type cap. -/
def skipForDiversity (st : DivState) (recipe : Recipe) : Bool :=
  let skipCuisine :=
    match recipe.cuisine_type with
    | some cuisine => decide (cuisineLimit ≤ st.cuisineCount cuisine)
    | none => false
  let skipMealType := recipe.meal_type.any fun mealType =>
    decide (mealTypeLimit ≤ st.mealTypeCount mealType)
  skipCuisine || skipMealType

/-- One iteration of the `selectDiverseSet` loop (lines 1043-1089): stop when
the target count is reached, skip a diversity-violating candidate only when
more than 15 are already selected, otherwise accept and bump the counters. -/
def selectDiverseStep (st : DivState) (candidate : RecipeCandidate) : DivState :=
  if targetCount ≤ st.selected.length then st
  else
    let recipe := candidate.recipe
    if skipForDiversity st recipe && decide (15 < st.selected.length) then st
    else
      let cuisineCount :=
        match recipe.cuisine_type with
        | some cuisine => bump st.cuisineCount cuisine
        | none => st.cuisineCount
      let mealTypeCount := recipe.meal_type.foldl bump st.mealTypeCount
      let difficultyCount :=
        match recipe.difficulty_level with
        | some difficulty => bump st.difficultyCount difficulty
        | none => st.difficultyCount
      { selected := st.selected ++ [candidate],
        cuisineCount := cuisineCount,
        mealTypeCount := mealTypeCount,
        difficultyCount := difficultyCount }

/-- `selectDiverseSet` (lines 1034-1098). -/
def selectDiverseSet (candidates : List RecipeCandidate) : List RecipeCandidate :=
  (candidates.foldl selectDiverseStep
    { selected := [], cuisineCount := fun _ => 0, mealTypeCount := fun _ => 0,
      difficultyCount := fun _ => 0 }).selected

end WowLayer

-- =============================================================================
-- plan-generator entry point (src/unnamed/part_001) — retry controller and
-- fallback generation
-- =============================================================================

namespace PlanGenerator

/-- A meal slot of the generated plan data. -/
structure MealSlot where
  meal_type : String
  recipe_id : String
  completed : Bool
deriving DecidableEq, Repr

/-- One day of the generated plan data; `date` is the epoch-millisecond value
of the slot date (the ISO rendering of the source is presentation only). -/
structure FallbackDay where
  day : String
  date : ℤ
  meals : List MealSlot
deriving DecidableEq, Repr

/-- The `plan_data` object assembled by the generator. -/
structure PlanData where
  days : List FallbackDay
  total_recipes : ℕ
  unique_recipes : ℕ
  variety_score : ℚ
deriving DecidableEq, Repr

/-- The fields of the produced `MealPlan` that the controller logic computes
(identifiers and timestamps are environment-supplied and not modelled). -/
structure MealPlan where
  week_theme : String
  plan_data : PlanData
  generated_by : String
deriving DecidableEq, Repr

/-- A row of the fallback recipe query; only `id` is read. -/
structure FallbackRecipe where
  id : String
deriving DecidableEq, Repr

/-- `generateFallbackPlan` (part_001 lines 586-645). The recipe query result
is `none` on a database error; an error or an empty result throws
`Failed to fetch fallback recipes`. Days are monday/tuesday/wednesday with
breakfast/lunch/dinner; the recipe of day `d`, meal `m` is pool entry
`(d * 3 + m) % pool.length`. -/
def generateFallbackPlan (weekStartMs : ℤ) (fetched : Option (List FallbackRecipe)) :
    Except String MealPlan :=
  match fetched with
  | none => .error "Failed to fetch fallback recipes"
  | some fallbackRecipes =>
      if fallbackRecipes.length = 0 then .error "Failed to fetch fallback recipes"
      else
        let days := ["monday", "tuesday", "wednesday"]
        let mealTypes := ["breakfast", "lunch", "dinner"]
        .ok
          { week_theme := "Getting Started",
            generated_by := "fallback_system",
            plan_data :=
              { days := days.enum.map fun dayEntry =>
                  { day := dayEntry.2,
                    date := weekStartMs + (dayEntry.1 : ℤ) * 86400000,
                    meals := mealTypes.enum.map fun mealEntry =>
                      let recipeIndex :=
                        (dayEntry.1 * 3 + mealEntry.1) % fallbackRecipes.length
                      { meal_type := mealEntry.2,
                        recipe_id := (fallbackRecipes.getD recipeIndex { id := "" }).id,
                        completed := false } },
                total_recipes := 9,
                unique_recipes := min 9 fallbackRecipes.length,
                variety_score := 60 } }

/-- The outcome of one full generation round (candidate selection, nutrition
council, wow layer, storage): the whole `try` block of the retry loop,
abstracted as an oracle indexed by the attempt number. -/
inductive RoundOutcome where
  | success (plan : MealPlan)
  | failure (message : String)
deriving DecidableEq, Repr

/-- Whether a round outcome is a failure. -/
def RoundOutcome.isFailure : RoundOutcome → Bool
  | .success _ => false
  | .failure _ => true

/-- The fields of `PlanGenerationResult` the controller decides (usage and
cost counters are pass-through accumulation and not modelled). -/
structure PlanGenerationResult where
  success : Bool
  meal_plan : Option MealPlan
  retry_count : ℕ
  used_fallback : Bool
  fallback_reason : Option String
  error_code : Option String
  error_message : Option String
deriving DecidableEq, Repr

/-- `maxRetries` of `generateMealPlanWithRetry` (line 390). -/
def maxRetries : ℕ := 3

/-- The `while (retryCount < maxRetries)` loop: run rounds `k, k+1, ...`
while `remaining` rounds are left; the first success wins, otherwise the
last failure message is carried out of the loop. -/
def tryRounds (rounds : ℕ → RoundOutcome) :
    (remaining : ℕ) → (k : ℕ) → (lastError : Option String) →
    Except (Option String) (ℕ × MealPlan)
  | 0, _, lastError => .error lastError
  | remaining + 1, k, lastError =>
      match rounds k with
      | .success plan => .ok (k, plan)
      | .failure message => tryRounds rounds remaining (k + 1) (some message)

/-- `generateMealPlanWithRetry` (part_001 lines 385-513): at most
`maxRetries` rounds, then the fallback circuit breaker; only a fallback
failure produces `success = false` with `COMPLETE_FAILURE`. -/
def generateMealPlanWithRetry (rounds : ℕ → RoundOutcome) (weekStartMs : ℤ)
    (fallbackFetch : Option (List FallbackRecipe)) : PlanGenerationResult :=
  match tryRounds rounds maxRetries 0 none with
  | .ok result =>
      { success := true,
        meal_plan := some result.2,
        retry_count := result.1,
        used_fallback := false,
        fallback_reason := none,
        error_code := none,
        error_message := none }
  | .error lastError =>
      match generateFallbackPlan weekStartMs fallbackFetch with
      | .ok fallbackPlan =>
          { success := true,
            meal_plan := some fallbackPlan,
            retry_count := maxRetries,
            used_fallback := true,
            fallback_reason := some ("Generation failed after " ++ toString maxRetries ++
              " attempts: " ++ lastError.getD "undefined"),
            error_code := none,
            error_message := none }
      | .error fallbackError =>
          { success := false,
            meal_plan := none,
            retry_count := maxRetries,
            used_fallback := false,
            fallback_reason := none,
            error_code := some "COMPLETE_FAILURE",
            error_message := some ("All generation attempts failed. Last error: " ++
              lastError.getD "undefined" ++ ". Fallback error: " ++ fallbackError) }

end PlanGenerator

-- =============================================================================
-- Theorems
-- =============================================================================

open NutritionValidator NutritionCouncil WowLayer PlanGenerator

/-- C2: for every plan and set of targets, `within_threshold` is true iff
each of the four core deviations (calories, protein, fat, carbohydrates) has
absolute value at most the configured threshold (15 by default, boundary
inclusive), and `is_valid` is `within_threshold` AND (no missing nutrition
data OR missing data tolerated because `require_all_recipes` is off); the
nutrition council variant likewise sets `is_valid` to its 15% threshold
check, with an always-empty missing-data list. -/
theorem validatePlan_threshold_and_validity
    (fetchRecipe : String → Option RecipeRow) (usda : String → Option NutritionData)
    (planData : PlanInput) (targets : Targets) (options : ValidationOptions)
    (totalNutrition : Macro4) (dayCount : ℚ) (councilTargets : CouncilTargets) :
    ((validatePlan fetchRecipe usda planData targets options).within_threshold = true ↔
      (|(validatePlan fetchRecipe usda planData targets options).target_deviations.calories_deviation| ≤
          options.deviation_threshold ∧
       |(validatePlan fetchRecipe usda planData targets options).target_deviations.protein_deviation| ≤
          options.deviation_threshold ∧
       |(validatePlan fetchRecipe usda planData targets options).target_deviations.fat_deviation| ≤
          options.deviation_threshold ∧
       |(validatePlan fetchRecipe usda planData targets options).target_deviations.carbohydrates_deviation| ≤
          options.deviation_threshold)) ∧
    ((validatePlan fetchRecipe usda planData targets options).is_valid =
      ((validatePlan fetchRecipe usda planData targets options).within_threshold &&
        (decide ((validatePlan fetchRecipe usda planData targets options).missing_nutrition_data = []) ||
          !options.require_all_recipes))) ∧
    defaultOptions.deviation_threshold = 15 ∧
    ((validateNutritionCore totalNutrition dayCount councilTargets).within_15_percent_threshold = true ↔
      (|(validateNutritionCore totalNutrition dayCount councilTargets).target_deviations.calories_deviation| ≤ 15 ∧
       |(validateNutritionCore totalNutrition dayCount councilTargets).target_deviations.protein_deviation| ≤ 15 ∧
       |(validateNutritionCore totalNutrition dayCount councilTargets).target_deviations.fat_deviation| ≤ 15 ∧
       |(validateNutritionCore totalNutrition dayCount councilTargets).target_deviations.carbohydrates_deviation| ≤ 15)) ∧
    (validateNutritionCore totalNutrition dayCount councilTargets).is_valid =
      (validateNutritionCore totalNutrition dayCount councilTargets).within_15_percent_threshold ∧
    (validateNutritionCore totalNutrition dayCount councilTargets).missing_nutrition_data = [] := by
  refine ⟨?_, ?_, rfl, ?_, rfl, rfl⟩
  · simp [validatePlan, List.all_cons, Bool.and_eq_true, decide_eq_true_eq, and_assoc]
  · simp only [validatePlan]
    cases options.require_all_recipes with
    | true => simp [List.length_eq_zero]
    | false => simp
  · simp [validateNutritionCore, List.all_cons, Bool.and_eq_true, decide_eq_true_eq, and_assoc]

/-- C6 (amended): the nutrition-validator resolver uses the declared
nutrition data (tier 1, `calculation_method = spoonacular`) iff that data is
present and passes its reliability check — calories > 0 and protein, fat,
carbohydrates all ≥ 0 — and otherwise, when the USDA fallback is enabled and
an ingredient list exists, falls through to per-ingredient composition
(`usda_calculated`); the nutrition-council variant likewise uses declared
data iff present and passing its own, weaker check, which requires only
calories > 0 and protein ≥ 0. -/
theorem nutrient_resolution_tier_selection (usda : String → Option NutritionData)
    (recipeId : String) (recipe : RecipeRow) (servings : ℚ) (useUSDAFallback : Bool) :
    ((∃ mn, mealNutritionOfRecipe usda recipeId recipe servings useUSDAFallback = some mn ∧
        mn.calculation_method = .spoonacular) ↔
      (∃ ni, recipe.nutrition_info = some ni ∧
        NutritionValidator.isReliableNutrition ni = true)) ∧
    (∀ ni ingredients, recipe.nutrition_info = some ni →
      NutritionValidator.isReliableNutrition ni = false →
      recipe.ingredients = some ingredients → useUSDAFallback = true →
      ∃ mn, mealNutritionOfRecipe usda recipeId recipe servings useUSDAFallback = some mn ∧
        mn.calculation_method = .usda_calculated) ∧
    (∀ ni, recipe.nutrition_info = some ni →
      NutritionCouncil.isReliableNutrition ni = true →
      NutritionCouncil.mealNutrition usda recipe =
        some { calories := ni.calories, protein := ni.protein, fat := ni.fat,
               carbohydrates := ni.carbohydrates }) ∧
    (∀ ni, recipe.nutrition_info = some ni →
      NutritionCouncil.isReliableNutrition ni = false →
      NutritionCouncil.mealNutrition usda recipe =
        NutritionCouncil.calculateRecipeNutritionFromUSDA usda recipe) := by
  refine ⟨?_, ?_, ?_, ?_⟩
  · cases hni : recipe.nutrition_info with
    | none =>
        simp only [mealNutritionOfRecipe, hni]
        cases hing : recipe.ingredients with
        | none => simp
        | some ingredients => cases useUSDAFallback <;> simp
    | some ni =>
        cases hrel : NutritionValidator.isReliableNutrition ni with
        | true => simp [mealNutritionOfRecipe, hni, hrel]
        | false =>
            simp only [mealNutritionOfRecipe, hni, hrel, Bool.false_eq_true, if_false]
            cases hing : recipe.ingredients with
            | none => simp [hrel]
            | some ingredients => cases useUSDAFallback <;> simp [hrel]
  · intro ni ingredients h1 h2 h3 h4
    subst h4
    simp [mealNutritionOfRecipe, h1, h2, h3]
  · intro ni h1 h2
    simp [NutritionCouncil.mealNutrition, h1, h2]
  · intro ni h1 h2
    simp [NutritionCouncil.mealNutrition, h1, h2]

/-- The recipe of the C6 counterexample: declared nutrition with positive
calories and protein but negative fat and carbohydrates. -/
def councilBadRecipe : RecipeRow :=
  { title := "mystery bowl",
    nutrition_info := some
      { calories := 100, protein := 5, fat := -5, carbohydrates := -3, fiber := 0 },
    ingredients := some [],
    servings := 1 }

/-- C6 counterexample: the nutrition-council resolver (its
`isReliableNutrition` checks only calories and protein) uses the declared
nutrition data of a recipe whose fat and carbohydrate values are negative,
contradicting the claim that tier 1 is used only when all of protein, fat
and carbohydrates are ≥ 0. -/
theorem council_reliability_ignores_fat_carbs :
    NutritionCouncil.mealNutrition (fun _ => none) councilBadRecipe =
      some { calories := 100, protein := 5, fat := -5, carbohydrates := -3 } ∧
    ((-5 : ℚ) < 0 ∧ (-3 : ℚ) < 0) := by
  constructor
  · decide
  · constructor <;> norm_num

/-- A recipe whose declared nutrition fails the validator reliability check
(zero calories) but which has an ingredient list. -/
def unreliableRecipe : RecipeRow :=
  { title := "thin air",
    nutrition_info := some
      { calories := 0, protein := 1, fat := 1, carbohydrates := 1, fiber := 0 },
    ingredients := some [],
    servings := 1 }

/-- Witness for the C6 theorem: at a concrete unreliable recipe with an
ingredient list, resolution falls through to the USDA tier. -/
theorem nutrient_resolution_tier_selection_witness :
    ∃ mn, mealNutritionOfRecipe (fun _ => none) "r1" unreliableRecipe 1 true = some mn ∧
      mn.calculation_method = .usda_calculated :=
  (nutrient_resolution_tier_selection (fun _ => none) "r1" unreliableRecipe 1 true).2.1
    _ [] rfl (by decide) rfl rfl

/-- The recipe of the C7 counterexample: reliable declared nutrition but a
declared servings value of `-1`. -/
def negativeServingsRecipe : RecipeRow :=
  { title := "toast",
    nutrition_info := some
      { calories := 100, protein := 10, fat := 5, carbohydrates := 20, fiber := 0 },
    ingredients := none,
    servings := -1 }

/-- C7 counterexample: the resolver does not treat every `servings ≤ 0` as 1.
With declared servings `-1` and requested servings 2, the serving multiplier
is `2 / -1 = -2`, so the resolved calories are `-200`, not the `200` that
treating the declared servings as 1 would give. -/
theorem negative_servings_not_treated_as_one :
    (mealNutritionOfRecipe (fun _ => none) "r" negativeServingsRecipe 2 true).map
        (fun mn => mn.nutrition.calories) = some (-200) ∧
    (mealNutritionOfRecipe (fun _ => none) "r"
        { negativeServingsRecipe with servings := 1 } 2 true).map
        (fun mn => mn.nutrition.calories) = some 200 ∧
    mealNutritionOfRecipe (fun _ => none) "r" negativeServingsRecipe 2 true ≠
      mealNutritionOfRecipe (fun _ => none) "r"
        { negativeServingsRecipe with servings := 1 } 2 true := by
  have ha : (mealNutritionOfRecipe (fun _ => none) "r" negativeServingsRecipe 2 true).map
      (fun mn => mn.nutrition.calories) = some (-200) := by
    norm_num [mealNutritionOfRecipe, negativeServingsRecipe,
      NutritionValidator.isReliableNutrition, jsOrNum, jsRound_eq_floor]
  have hb : (mealNutritionOfRecipe (fun _ => none) "r"
      { negativeServingsRecipe with servings := 1 } 2 true).map
      (fun mn => mn.nutrition.calories) = some 200 := by
    norm_num [mealNutritionOfRecipe, negativeServingsRecipe,
      NutritionValidator.isReliableNutrition, jsOrNum, jsRound_eq_floor]
  refine ⟨ha, hb, fun h => ?_⟩
  have hc := congrArg (Option.map fun mn => mn.nutrition.calories) h
  rw [ha, hb] at hc
  exact absurd (Option.some.inj hc) (by norm_num)

/-- C7 (amended): the nutrient resolvers treat a declared servings value of
exactly 0 (or a missing one, which reads as 0) as 1 — so the requested
serving count is never divided by zero and resolution returns well-defined
totals — but a strictly negative declared servings value is used as the
divisor unchanged. The council serving multiplier behaves the same way. -/
theorem servings_zero_treated_as_one (usda : String → Option NutritionData)
    (recipeId : String) (recipe : RecipeRow) (servings : ℚ) (useUSDAFallback : Bool)
    (h : recipe.servings = 0) :
    jsOrNum recipe.servings 1 = 1 ∧
    mealNutritionOfRecipe usda recipeId recipe servings useUSDAFallback =
      mealNutritionOfRecipe usda recipeId { recipe with servings := 1 }
        servings useUSDAFallback ∧
    (∀ mealServings recipeServings : ℚ, recipeServings = 0 →
      NutritionCouncil.councilServingMultiplier mealServings recipeServings =
        jsOrNum mealServings 1 / 1) := by
  refine ⟨by simp [jsOrNum, h], ?_, ?_⟩
  · cases recipe with
    | mk title nutrition_info ingredients servingsField =>
        simp only at h
        subst h
        simp [mealNutritionOfRecipe, jsOrNum]
  · intro mealServings recipeServings hz
    subst hz
    simp [NutritionCouncil.councilServingMultiplier, jsOrNum]

/-- Witness for the C7 amended theorem at a concrete zero-servings recipe. -/
theorem servings_zero_treated_as_one_witness :
    jsOrNum ({ negativeServingsRecipe with servings := 0 } : RecipeRow).servings 1 = 1 ∧
    mealNutritionOfRecipe (fun _ => none) "r"
        { negativeServingsRecipe with servings := 0 } 2 true =
      mealNutritionOfRecipe (fun _ => none) "r"
        { negativeServingsRecipe with servings := 1 } 2 true ∧
    (∀ mealServings recipeServings : ℚ, recipeServings = 0 →
      NutritionCouncil.councilServingMultiplier mealServings recipeServings =
        jsOrNum mealServings 1 / 1) :=
  servings_zero_treated_as_one (fun _ => none) "r"
    { negativeServingsRecipe with servings := 0 } 2 true rfl

/-- C8 (amended): the nutrition-validator conversion table maps
gram/kilogram, ounce/pound, cup, tablespoon, teaspoon and milliliter/liter
to fixed multipliers and defaults every unrecognized unit to `amount * 100`;
the nutrition-council table maps gram/kilogram, ounce/pound, cup, tablespoon
and teaspoon and has the same default for unrecognized units, but has no
milliliter/liter entries, so those units fall to the default there. -/
theorem unit_conversion_tables (a : ℚ) :
    (convertToGrams a "g" = a * 1 ∧ convertToGrams a "kg" = a * 1000 ∧
     convertToGrams a "kilogram" = a * 1000 ∧
     convertToGrams a "oz" = a * 28.35 ∧ convertToGrams a "ounce" = a * 28.35 ∧
     convertToGrams a "lb" = a * 453.59 ∧ convertToGrams a "pound" = a * 453.59 ∧
     convertToGrams a "cup" = a * 240 ∧
     convertToGrams a "tbsp" = a * 15 ∧ convertToGrams a "tablespoon" = a * 15 ∧
     convertToGrams a "tsp" = a * 5 ∧ convertToGrams a "teaspoon" = a * 5 ∧
     convertToGrams a "ml" = a * 1 ∧ convertToGrams a "milliliter" = a * 1 ∧
     convertToGrams a "l" = a * 1000 ∧ convertToGrams a "liter" = a * 1000) ∧
    (∀ unit, gramsTable.lookup unit.toLower = none →
      convertToGrams a unit = a * 100) ∧
    (convertToStandardAmount a "g" = a * 1 ∧
     convertToStandardAmount a "kg" = a * 1000 ∧
     convertToStandardAmount a "oz" = a * 28.35 ∧
     convertToStandardAmount a "lb" = a * 453.59 ∧
     convertToStandardAmount a "pound" = a * 453.59 ∧
     convertToStandardAmount a "cup" = a * 240 ∧
     convertToStandardAmount a "tbsp" = a * 15 ∧
     convertToStandardAmount a "tsp" = a * 5) ∧
    (∀ unit, standardAmountTable.lookup unit.toLower = none →
      convertToStandardAmount a unit = a * 100) ∧
    standardAmountTable.lookup "ml" = none ∧
    standardAmountTable.lookup "liter" = none := by
  refine ⟨⟨?_, ?_, ?_, ?_, ?_, ?_, ?_, ?_, ?_, ?_, ?_, ?_, ?_, ?_, ?_, ?_⟩,
    ?_, ⟨?_, ?_, ?_, ?_, ?_, ?_, ?_, ?_⟩, ?_, ?_, ?_⟩ <;>
    first
      | (intro unit h
         first
           | (rw [convertToGrams, h]; norm_num [jsOrNum])
           | (rw [NutritionCouncil.convertToStandardAmount, h]; norm_num [jsOrNum]))
      | with_unfolding_all rfl

/-- Witness for the C8 theorem: a concrete unrecognized unit takes the
`amount * 100` default in the validator table. -/
theorem unit_conversion_tables_witness :
    gramsTable.lookup (String.toLower "handful") = none ∧
    convertToGrams 2 "handful" = 2 * 100 :=
  ⟨by with_unfolding_all rfl,
    (unit_conversion_tables 2).2.1 "handful" (by with_unfolding_all rfl)⟩

/-- C8 counterexample: the council conversion has no milliliter/liter
mapping — one milliliter converts to 100 grams (the unrecognized-unit
default) instead of 1 gram, and one liter to 100 grams instead of 1000. -/
theorem council_table_lacks_milliliters :
    NutritionCouncil.convertToStandardAmount 1 "ml" = 100 ∧
    NutritionCouncil.convertToStandardAmount 1 "l" = 100 ∧
    (100 : ℚ) ≠ 1 ∧ (100 : ℚ) ≠ 1000 := by
  refine ⟨by with_unfolding_all rfl, by with_unfolding_all rfl, by norm_num, by norm_num⟩

/-- Filtering then testing `any` is one `any` with a conjunction. -/
theorem any_filter_eq {α : Type} (l : List α) (p q : α → Bool) :
    (l.filter p).any q = l.any fun x => p x && q x := by
  induction l with
  | nil => rfl
  | cons x xs ih =>
      cases hx : p x <;> simp [List.filter_cons, hx, List.any_cons, ih]

/-- C3: for every scored candidate the final score is
`0.3 * base_score + 0.4 * personalization_score`, multiplied by 1.3 when the
exact recipe appears as a recent `love` rating, by 1.1 when the recipe is
premium and the user has premium access, and by 0.7 when it is the original
recipe of a recent swap, clamped to [0, 100] — the computed
`calculateFinalScore` equals the specification formula `specFinalScore`. -/
theorem final_score_formula (candidate : RecipeCandidate) (blueprint : UserBlueprint)
    (preferences : GenerationPreferences) :
    calculateFinalScore candidate (buildScoringCriteria blueprint preferences) blueprint =
      specFinalScore candidate blueprint := by
  simp only [calculateFinalScore, specFinalScore, buildScoringCriteria,
    getRecentFavoriteBonus, getSwapPenalty, any_filter_eq]
  cases hL : blueprint.recent_ratings.any fun r =>
      decide (r.rating = "love") && decide (r.recipe_id = candidate.recipe.id) <;>
    cases hS : blueprint.recent_swaps.any fun swap =>
        decide (swap.original_recipe_id = candidate.recipe.id) <;>
      cases hA : blueprint.subscription_plan.access_to_premium_content <;>
        cases hP : candidate.recipe.is_premium <;>
          simp only [Bool.true_and, Bool.false_and, Bool.and_true, Bool.and_false,
            Bool.false_eq_true, if_true, if_false, ite_true, ite_false] <;> ring_nf

/-- The all-same-cuisine candidate of the C4 counterexample. -/
def italianCandidate : RecipeCandidate :=
  { recipe :=
      { id := "it1", title := "pasta al forno", cuisine_type := some "italian",
        meal_type := [], difficulty_level := none, rating_average := 4,
        is_premium := false },
    base_score := 50, ai_personalization_score := 50, final_score := 50,
    match_reasons := [], penalty_reasons := [] }

/-- C4 counterexample: seven candidates of the same cuisine are all accepted
even though the per-cuisine cap is `ceil(30/5) = 6` and only 7 ≤ 15
candidates have been accepted — the cap is not enforced before half the
target count is reached, so the claim's "never accepts a candidate that
would exceed the per-cuisine cap until half the target count" is false. -/
theorem diversity_cap_exceeded_before_half :
    (selectDiverseSet (List.replicate 7 italianCandidate)).length = 7 ∧
    ((selectDiverseSet (List.replicate 7 italianCandidate)).filter
      fun c => decide (c.recipe.cuisine_type = some "italian")).length = 7 ∧
    cuisineLimit = 6 ∧ (7 : ℕ) ≤ 15 := by
  refine ⟨?_, ?_, ?_, by norm_num⟩ <;> with_unfolding_all decide

/-- C4 (amended): the diversity caps work the other way round from the
claim — while at most half the target count (15 of 30) has been accepted, a
candidate exceeding the per-cuisine or per-meal-type cap is still accepted;
the caps are enforced only once more than 15 candidates have been accepted
(and acceptance stops entirely at the target count). -/
theorem diversity_caps_enforced_after_half (st : DivState) (candidate : RecipeCandidate) :
    (15 < st.selected.length → skipForDiversity st candidate.recipe = true →
      selectDiverseStep st candidate = st) ∧
    (st.selected.length ≤ 15 → st.selected.length < targetCount →
      (selectDiverseStep st candidate).selected = st.selected ++ [candidate]) := by
  constructor
  · intro h15 hskip
    unfold selectDiverseStep
    by_cases hfull : targetCount ≤ st.selected.length
    · simp [hfull]
    · simp [hfull, hskip, h15]
  · intro h15 hlt
    have hfull : ¬ targetCount ≤ st.selected.length := by omega
    have h2 : ¬ 15 < st.selected.length := by omega
    unfold selectDiverseStep
    simp [hfull, h2]

/-- The empty selection state. -/
def emptyDivState : DivState :=
  { selected := [], cuisineCount := fun _ => 0, mealTypeCount := fun _ => 0,
    difficultyCount := fun _ => 0 }

/-- Witness for the C4 amended theorem: from the empty state (0 ≤ 15
accepted) a candidate is accepted unconditionally. -/
theorem diversity_caps_enforced_after_half_witness :
    (selectDiverseStep emptyDivState italianCandidate).selected =
      emptyDivState.selected ++ [italianCandidate] :=
  (diversity_caps_enforced_after_half emptyDivState italianCandidate).2
    (by norm_num [emptyDivState]) (by norm_num [emptyDivState, targetCount])

/-- C5: when the parsed scorer response (`recipe_scores`) has no entry for
some recipe of the working set, parsing still succeeds, returns one candidate
per input recipe, and gives that recipe a candidate with base, AI and final
scores all 50 and the penalty reason `No AI score available` — partial
scorer output alone never fails selection. -/
theorem scorer_partial_entries_default (scores : String → Option ScoreData)
    (recipes : List Recipe) (i : ℕ) (hi : i < recipes.length)
    (hnone : scores (recipes.get ⟨i, hi⟩).id = none) :
    ∃ candidates, parseAIScoringResponse (some scores) recipes = .ok candidates ∧
      candidates.length = recipes.length ∧
      ∃ hc : i < candidates.length,
        candidates.get ⟨i, hc⟩ =
          { recipe := recipes.get ⟨i, hi⟩, base_score := 50,
            ai_personalization_score := 50, final_score := 50,
            match_reasons := [], penalty_reasons := ["No AI score available"] } := by
  refine ⟨_, rfl, List.length_map _ _, by simpa using hi, ?_⟩
  simp only [List.get_eq_getElem, List.getElem_map]
  rw [show recipes[i] = recipes.get ⟨i, hi⟩ from rfl, hnone]

/-- A sample recipe for the C5 witness. -/
def sampleRecipe : Recipe :=
  { id := "rX", title := "omelette", cuisine_type := none,
    meal_type := ["breakfast"], difficulty_level := none, rating_average := 3,
    is_premium := false }

/-- Witness for the C5 theorem: a scorer response with no entries still
produces the default candidate for a concrete recipe. -/
theorem scorer_partial_entries_default_witness :
    ∃ candidates,
      parseAIScoringResponse (some fun _ => none) [sampleRecipe] = .ok candidates ∧
      candidates.length = [sampleRecipe].length ∧
      ∃ hc : 0 < candidates.length,
        candidates.get ⟨0, hc⟩ =
          { recipe := [sampleRecipe].get ⟨0, by norm_num⟩, base_score := 50,
            ai_personalization_score := 50, final_score := 50,
            match_reasons := [], penalty_reasons := ["No AI score available"] } :=
  scorer_partial_entries_default (fun _ => none) [sampleRecipe] 0 (by norm_num) rfl

/-- Whether a coherence response shape carries a numeric `rating` field. -/
def hasNumericRating : CoherenceResponseShape → Bool
  | .jsonObject (some (.num _)) _ => true
  | _ => false

/-- The coherence response of the C10 counterexample: a parseable JSON
object whose `rating` field is the string `"9"`, not a number. -/
def stringNineResponse : CoherenceResponseShape :=
  .jsonObject (some (.str "9")) (some "solid plan")

/-- C10 counterexample: a response whose rating field is the string `"9"`
has no numeric rating field, yet `parsed.rating || 0` keeps the truthy
string instead of defaulting to 0, and the `rating >= 7` check numerically
coerces it, so the validation pass accepts the plan — falsifying both the
default-to-0 half and the never-accepted half of the claim. -/
theorem string_rating_accepted_despite_nonnumeric :
    hasNumericRating stringNineResponse = false ∧
    (parseCoherenceResponse stringNineResponse).rating = .str "9" ∧
    (parseCoherenceResponse stringNineResponse).rating ≠ .num 0 ∧
    validationPassAccepts true (some stringNineResponse) = true := by
  refine ⟨rfl, ?_, ?_, ?_⟩ <;> with_unfolding_all decide

/-- C10 (amended): the parsed rating defaults to 0 — and the validation pass
can then never accept the plan, whatever the nutrition verdict — exactly
when no JSON object parses or the object's `rating` field is absent or
falsy (null, false, the number 0, the empty string); a truthy non-numeric
rating, however, is passed through `parsed.rating || 0` unchanged, and the
`rating >= 7` acceptance check applies JS numeric coercion to it, so a
malformed response with a truthy non-numeric rating can still be accepted. -/
theorem coherence_rating_default_and_coercion (nutritionValid : Bool) :
    ((parseCoherenceResponse .noJsonObject).rating = .num 0 ∧
      validationPassAccepts nutritionValid (some .noJsonObject) = false) ∧
    (∀ rating feedback,
      (rating = none ∨ ∃ v, rating = some v ∧ JsonPrim.truthy v = false) →
      (parseCoherenceResponse (.jsonObject rating feedback)).rating = .num 0 ∧
      validationPassAccepts nutritionValid (some (.jsonObject rating feedback)) = false) ∧
    (∀ v feedback, JsonPrim.truthy v = true →
      (parseCoherenceResponse (.jsonObject (some v) feedback)).rating = v) := by
  have h7 : jsGe (.num 0) 7 = false := by
    simp only [jsGe, jsToNumber]
    norm_num
  refine ⟨⟨rfl, ?_⟩, ?_, ?_⟩
  · simp [validationPassAccepts, validateCoherence, parseCoherenceResponse, h7]
  · intro rating feedback hfalsy
    have hr : (parseCoherenceResponse (.jsonObject rating feedback)).rating = .num 0 := by
      rcases hfalsy with hnone | ⟨v, hv, hvf⟩
      · subst hnone; rfl
      · subst hv; simp [parseCoherenceResponse, hvf]
    refine ⟨hr, ?_⟩
    simp [validationPassAccepts, validateCoherence, hr, h7]
  · intro v feedback hv
    simp [parseCoherenceResponse, hv]

/-- Witness for the C10 amended theorem: a null rating defaults to the
number 0 and the pass rejects even with valid nutrition. -/
theorem coherence_rating_default_and_coercion_witness :
    (parseCoherenceResponse (.jsonObject (some .null) none)).rating = .num 0 ∧
    validationPassAccepts true (some (.jsonObject (some .null) none)) = false :=
  (coherence_rating_default_and_coercion true).2.1 (some .null) none
    (Or.inr ⟨.null, rfl, rfl⟩)

/-- C9: whenever the fallback pool has at least one recipe, the generated
fallback plan has exactly 3 day slots of exactly 3 meal slots each (9 slots
in total, independent of the pool size), and the recipe of day `d`, meal `m`
is the pool entry at index `(d * 3 + m) % pool.length`. -/
theorem fallback_plan_three_by_three (weekStartMs : ℤ) (pool : List FallbackRecipe)
    (h : pool ≠ []) :
    ∃ plan, generateFallbackPlan weekStartMs (some pool) = .ok plan ∧
      plan.plan_data.days.length = 3 ∧
      (∀ day ∈ plan.plan_data.days, day.meals.length = 3) ∧
      (plan.plan_data.days.map fun day => day.meals.length).sum = 9 ∧
      (∀ d m, d < 3 → m < 3 →
        ((plan.plan_data.days.getD d { day := "", date := 0, meals := [] }).meals.getD m
            { meal_type := "", recipe_id := "", completed := false }).recipe_id =
          (pool.getD ((d * 3 + m) % pool.length) { id := "" }).id) := by
  have hlen : ¬ pool.length = 0 := by simpa [List.length_eq_zero] using h
  simp only [generateFallbackPlan]
  rw [if_neg hlen]
  refine ⟨_, rfl, rfl, ?_, rfl, ?_⟩
  · intro day hday
    simp only [List.enum] at hday
    fin_cases hday <;> rfl
  · intro d m hd hm
    interval_cases d <;> interval_cases m <;> rfl

/-- Witness for the C9 theorem at a concrete two-recipe pool. -/
theorem fallback_plan_three_by_three_witness :
    ∃ plan, generateFallbackPlan 0 (some [⟨"a"⟩, ⟨"b"⟩]) = .ok plan ∧
      plan.plan_data.days.length = 3 ∧
      (∀ day ∈ plan.plan_data.days, day.meals.length = 3) ∧
      (plan.plan_data.days.map fun day => day.meals.length).sum = 9 ∧
      (∀ d m, d < 3 → m < 3 →
        ((plan.plan_data.days.getD d { day := "", date := 0, meals := [] }).meals.getD m
            { meal_type := "", recipe_id := "", completed := false }).recipe_id =
          (([⟨"a"⟩, ⟨"b"⟩] : List FallbackRecipe).getD ((d * 3 + m) % 2) { id := "" }).id) :=
  fallback_plan_three_by_three 0 [⟨"a"⟩, ⟨"b"⟩] (by simp)

/-- The retry loop only consults the round oracle at indices `k` to
`k + remaining - 1`. -/
theorem tryRounds_congr (rounds rounds2 : ℕ → RoundOutcome) :
    ∀ (remaining k : ℕ) (lastError : Option String),
      (∀ i, k ≤ i → i < k + remaining → rounds i = rounds2 i) →
      tryRounds rounds remaining k lastError = tryRounds rounds2 remaining k lastError := by
  intro remaining
  induction remaining with
  | zero => intro k lastError h; rfl
  | succ n ih =>
      intro k lastError h
      simp only [tryRounds]
      rw [h k (le_refl k) (by omega)]
      cases rounds2 k with
      | success plan => rfl
      | failure message =>
          exact ih (k + 1) (some message) fun i h1 h2 => h i (by omega) (by omega)

/-- C1: the generation controller runs at most `maxRetries = 3` rounds — its
result depends only on the first three round outcomes — and when all three
rounds fail it unconditionally attempts fallback generation: with a non-empty
fallback pool it returns success with `used_fallback = true`,
`retry_count = 3` and a non-empty `fallback_reason`; only a fallback failure
(no pool row fetched, or an empty pool) yields `success = false` with error
code `COMPLETE_FAILURE`. -/
theorem controller_retry_and_fallback (rounds rounds2 : ℕ → RoundOutcome)
    (weekStartMs : ℤ) (fallbackFetch : Option (List FallbackRecipe)) :
    ((∀ i, i < maxRetries → rounds i = rounds2 i) →
      generateMealPlanWithRetry rounds weekStartMs fallbackFetch =
        generateMealPlanWithRetry rounds2 weekStartMs fallbackFetch) ∧
    ((∀ i, i < maxRetries → (rounds i).isFailure = true) →
      (∀ pool, fallbackFetch = some pool → pool ≠ [] →
        (generateMealPlanWithRetry rounds weekStartMs fallbackFetch).success = true ∧
        (generateMealPlanWithRetry rounds weekStartMs fallbackFetch).used_fallback = true ∧
        (generateMealPlanWithRetry rounds weekStartMs fallbackFetch).retry_count = 3 ∧
        (∃ reason,
          (generateMealPlanWithRetry rounds weekStartMs fallbackFetch).fallback_reason =
            some reason ∧ reason ≠ "") ∧
        (generateMealPlanWithRetry rounds weekStartMs fallbackFetch).error_code = none) ∧
      ((fallbackFetch = none ∨ fallbackFetch = some []) →
        (generateMealPlanWithRetry rounds weekStartMs fallbackFetch).success = false ∧
        (generateMealPlanWithRetry rounds weekStartMs fallbackFetch).error_code =
          some "COMPLETE_FAILURE" ∧
        (generateMealPlanWithRetry rounds weekStartMs fallbackFetch).used_fallback = false)) ∧
    ((generateMealPlanWithRetry rounds weekStartMs fallbackFetch).success = false →
      (generateMealPlanWithRetry rounds weekStartMs fallbackFetch).error_code =
        some "COMPLETE_FAILURE" ∧
      ∃ fallbackError,
        generateFallbackPlan weekStartMs fallbackFetch = .error fallbackError) := by
  refine ⟨?_, ?_, ?_⟩
  case refine_3 =>
    intro hfalse
    rcases htr : tryRounds rounds maxRetries 0 none with res | lastErr <;>
      rcases hfb : generateFallbackPlan weekStartMs fallbackFetch with fp | fe <;>
        simp only [generateMealPlanWithRetry, htr, hfb] at hfalse ⊢ <;>
          first
            | exact ⟨trivial, _, rfl⟩
            | cases hfalse
  · intro h
    unfold generateMealPlanWithRetry
    rw [tryRounds_congr rounds rounds2 maxRetries 0 none
      (fun i _ h2 => h i (by simpa using h2))]
  · intro hfail
    obtain ⟨m0, hr0⟩ : ∃ m, rounds 0 = .failure m := by
      have h0 := hfail 0 (by norm_num [maxRetries])
      cases hc : rounds 0 with
      | success plan => rw [hc] at h0; simp [RoundOutcome.isFailure] at h0
      | failure message => exact ⟨message, rfl⟩
    obtain ⟨m1, hr1⟩ : ∃ m, rounds 1 = .failure m := by
      have h1 := hfail 1 (by norm_num [maxRetries])
      cases hc : rounds 1 with
      | success plan => rw [hc] at h1; simp [RoundOutcome.isFailure] at h1
      | failure message => exact ⟨message, rfl⟩
    obtain ⟨m2, hr2⟩ : ∃ m, rounds 2 = .failure m := by
      have h2 := hfail 2 (by norm_num [maxRetries])
      cases hc : rounds 2 with
      | success plan => rw [hc] at h2; simp [RoundOutcome.isFailure] at h2
      | failure message => exact ⟨message, rfl⟩
    have hstep : ∀ n k lastError, tryRounds rounds (n + 1) k lastError =
        match rounds k with
        | .success plan => .ok (k, plan)
        | .failure message => tryRounds rounds n (k + 1) (some message) :=
      fun _ _ _ => rfl
    have ht : tryRounds rounds maxRetries 0 none = .error (some m2) := by
      show tryRounds rounds (2 + 1) 0 none = .error (some m2)
      rw [hstep, hr0]
      show tryRounds rounds (1 + 1) 1 (some m0) = .error (some m2)
      rw [hstep, hr1]
      show tryRounds rounds (0 + 1) 2 (some m1) = .error (some m2)
      rw [hstep, hr2]
      rfl
    have hnonempty : ("Generation failed after " ++ toString maxRetries ++
        " attempts: " ++ m2) ≠ "" := by
      intro heq
      have hlenq : ("Generation failed after " ++ toString maxRetries ++
          " attempts: " ++ m2).length = 0 := by rw [heq]; rfl
      rw [String.length_append, String.length_append, String.length_append] at hlenq
      have h24 : "Generation failed after ".length = 24 := rfl
      rw [h24] at hlenq
      omega
    constructor
    · intro pool hpool hne
      have hlen : ¬ pool.length = 0 := by simpa [List.length_eq_zero] using hne
      subst hpool
      have hres : generateMealPlanWithRetry rounds weekStartMs (some pool) =
          { success := true,
            meal_plan := (generateFallbackPlan weekStartMs (some pool)).toOption,
            retry_count := maxRetries,
            used_fallback := true,
            fallback_reason := some ("Generation failed after " ++ toString maxRetries ++
              " attempts: " ++ m2),
            error_code := none,
            error_message := none } := by
        simp only [generateMealPlanWithRetry, ht, generateFallbackPlan, if_neg hlen]
        rfl
      rw [hres]
      exact ⟨rfl, rfl, rfl, ⟨_, rfl, hnonempty⟩, rfl⟩
    · intro hcases
      rcases hcases with hnone | hempty
      · subst hnone
        have hres : generateMealPlanWithRetry rounds weekStartMs none =
            { success := false, meal_plan := none, retry_count := maxRetries,
              used_fallback := false, fallback_reason := none,
              error_code := some "COMPLETE_FAILURE",
              error_message := some ("All generation attempts failed. Last error: " ++
                m2 ++ ". Fallback error: " ++ "Failed to fetch fallback recipes") } := by
          simp only [generateMealPlanWithRetry, ht, generateFallbackPlan]
          rfl
        rw [hres]
        exact ⟨rfl, rfl, rfl⟩
      · subst hempty
        have hres : generateMealPlanWithRetry rounds weekStartMs (some []) =
            { success := false, meal_plan := none, retry_count := maxRetries,
              used_fallback := false, fallback_reason := none,
              error_code := some "COMPLETE_FAILURE",
              error_message := some ("All generation attempts failed. Last error: " ++
                m2 ++ ". Fallback error: " ++ "Failed to fetch fallback recipes") } := by
          simp only [generateMealPlanWithRetry, ht, generateFallbackPlan]
          rfl
        rw [hres]
        exact ⟨rfl, rfl, rfl⟩

/-- A round oracle where every round fails. -/
def allRoundsFail : ℕ → RoundOutcome := fun _ => .failure "coherence rating 5"

/-- Witness for the C1 theorem: with three failed rounds and a one-recipe
fallback pool, the controller returns a fallback success with retry count 3
and a non-empty reason. -/
theorem controller_retry_and_fallback_witness :
    (generateMealPlanWithRetry allRoundsFail 0 (some [⟨"a"⟩])).success = true ∧
    (generateMealPlanWithRetry allRoundsFail 0 (some [⟨"a"⟩])).used_fallback = true ∧
    (generateMealPlanWithRetry allRoundsFail 0 (some [⟨"a"⟩])).retry_count = 3 ∧
    (∃ reason, (generateMealPlanWithRetry allRoundsFail 0 (some [⟨"a"⟩])).fallback_reason =
      some reason ∧ reason ≠ "") ∧
    (generateMealPlanWithRetry allRoundsFail 0 (some [⟨"a"⟩])).error_code = none :=
  ((controller_retry_and_fallback allRoundsFail allRoundsFail 0 (some [⟨"a"⟩])).2.1
    (fun i _ => rfl)).1 [⟨"a"⟩] rfl (by simp)

end Mealwise
